import Mathlib

/-!
Verification of the Shakespeare-GA front-end's evolution-session controller
(the React `App` component) and of its fitness-chart renderer, via a shallow
embedding of the state-manipulating code.

The controller owns an `AppState` record (the `useState` value) and a mutable
interval handle (`evolutionIntervalRef`).  Asynchronous remote calls are
modelled by passing their results in as `Except String _` values ("" stands
for a missing/falsy `error.message`).  Interval lifecycle and the ordering of
scheduled moments versus reconciliations are modelled by an event trace.
-/

namespace ShakespeareGA

/-- `Individual` from services/api.ts: `{ genes: string, fitness: number }`. -/
structure Individual where
  genes : String
  fitness : ℚ
deriving DecidableEq

/-- `Statistics` from services/api.ts. -/
structure Statistics where
  generation : ℕ
  best_fitness : ℚ
  avg_fitness : ℚ
  worst_fitness : ℚ
deriving DecidableEq

/-- `HistoryEntry` from services/api.ts (also the chart's `DataPoint`). -/
structure HistoryEntry where
  generation : ℕ
  best_fitness : ℚ
  avg_fitness : ℚ
deriving DecidableEq

/-- Payload of a successful `gaAPI.evolve` response (`evolveResponse.data`). -/
structure EvolveResponse where
  top_individuals : List Individual
  statistics : Statistics
  is_complete : Bool
deriving DecidableEq

/-- `GAConfig` collected by the control panel and forwarded to the service. -/
structure GAConfig where
  population_size : ℕ
  mutation_rate : ℚ
  crossover_rate : ℚ
  elitism_count : ℕ
deriving DecidableEq

/-- The `AppState` interface of the App component. -/
structure AppState where
  isInitialized : Bool
  isRunning : Bool
  generation : ℕ
  target : String
  population : List Individual
  bestEver : Option Individual
  averageFitness : ℚ
  isComplete : Bool
  history : List HistoryEntry
  error : Option String
deriving DecidableEq

/-- The initial value passed to `useState` (and re-installed by a successful
reset). -/
def initialAppState : AppState :=
  { isInitialized := false
    isRunning := false
    generation := 0
    target := ""
    population := []
    bestEver := none
    averageFitness := 0
    isComplete := false
    history := []
    error := none }

/-- The controller's full mutable footprint: the React state plus the
interval handle.  `intervalActive = true` models
`evolutionIntervalRef.current ≠ null`, i.e. a live `setInterval`. -/
structure ControllerState where
  app : AppState
  intervalActive : Bool
deriving DecidableEq

/-- The spec's session phase, derived from the App's boolean flags. -/
inductive Phase where
  | Idle
  | Running
  | Complete
  | Stopped
deriving DecidableEq

/-- Map the component's flags to the spec's `phase` enumeration. -/
def AppState.phase (s : AppState) : Phase :=
  if s.isInitialized then
    if s.isComplete then Phase.Complete
    else if s.isRunning then Phase.Running
    else Phase.Stopped
  else Phase.Idle

/-- JavaScript's `error.message || fallback`: an empty (falsy) message is
replaced by the fallback string. -/
def errMsgOr (msg fallback : String) : String :=
  if msg = "" then fallback else msg

/-- Results the remote service hands one poll tick: the three awaited calls
`gaAPI.evolve`, `gaAPI.getHistory`, `gaAPI.getBest`, each either a payload or
a thrown error message. -/
structure Remote where
  evolveResult : Except String EvolveResponse
  historyResult : Except String (List HistoryEntry)
  bestResult : Except String Individual

/-- Names of the per-tick remote calls, in dispatch order. -/
inductive GaCall where
  | evolveCall
  | historyCall
  | bestCall
deriving DecidableEq

/-- `handleStart`: clears `error`, awaits the remote initialization, and on
success stores the initial population, marks the session initialized and
running, and installs the interval (`setInterval(..., 100)`); on failure only
sets `error`. -/
def handleStart (s : ControllerState) (target : String) (_config : GAConfig)
    (initResult : Except String (List Individual)) : ControllerState :=
  let s0 : ControllerState := { s with app := { s.app with error := none } }
  match initResult with
  | Except.ok initial_population =>
      { app := { s0.app with
          isInitialized := true
          isRunning := true
          target := target
          generation := 0
          population := initial_population }
        intervalActive := true }
  | Except.error msg =>
      { s0 with app := { s0.app with error := some (errMsgOr msg "Failed to initialize GA") } }

/-- The polling period of the evolution loop, in milliseconds. -/
def pollingPeriodMs : ℕ := 100

/-- The success-path state update of `evolveGeneration`: the `setState` merge
of the three responses, followed by the `if (isComplete)` block that clears
the interval and drops `isRunning`. -/
def applyTickResponse (s : ControllerState) (e : EvolveResponse)
    (h : List HistoryEntry) (b : Individual) : ControllerState :=
  let app1 : AppState := { s.app with
      population := e.top_individuals
      generation := e.statistics.generation
      averageFitness := e.statistics.avg_fitness
      bestEver := some b
      isComplete := e.is_complete
      history := h }
  if e.is_complete then
    { app := { app1 with isRunning := false }, intervalActive := false }
  else
    { app := app1, intervalActive := s.intervalActive }

/-- The `catch` block of `evolveGeneration`: clear the interval and drop
`isRunning`; the App state's `error` field is not touched. -/
def tickFailure (s : ControllerState) : ControllerState :=
  { app := { s.app with isRunning := false }, intervalActive := false }

/-- One run of `evolveGeneration` against given remote results.  Returns the
new controller state, the list of remote calls issued (in order), and the
console messages produced. -/
def evolveGeneration (s : ControllerState) (remote : Remote) :
    ControllerState × List GaCall × List String :=
  match remote.evolveResult with
  | Except.error msg =>
      (tickFailure s, [GaCall.evolveCall], ["Evolution error: " ++ msg])
  | Except.ok e =>
    match remote.historyResult with
    | Except.error msg =>
        (tickFailure s, [GaCall.evolveCall, GaCall.historyCall],
         ["Evolution error: " ++ msg])
    | Except.ok h =>
      match remote.bestResult with
      | Except.error msg =>
          (tickFailure s, [GaCall.evolveCall, GaCall.historyCall, GaCall.bestCall],
           ["Evolution error: " ++ msg])
      | Except.ok b =>
          (applyTickResponse s e h b,
           [GaCall.evolveCall, GaCall.historyCall, GaCall.bestCall],
           if e.is_complete then ["Evolution complete! Stopping..."] else [])

/-- `stopEvolution`: clear the interval if set, then set `isRunning` false. -/
def stopEvolution (s : ControllerState) : ControllerState :=
  { app := { s.app with isRunning := false }, intervalActive := false }

/-- `handleReset`: stop the loop, await the remote reset; on success replace
the whole state with the initial record, on failure only set `error` (the
`setState` clearing is never reached because `await gaAPI.reset()` threw). -/
def handleReset (s : ControllerState) (resetResult : Except String Unit) : ControllerState :=
  let s1 := stopEvolution s
  match resetResult with
  | Except.ok _ => { app := initialAppState, intervalActive := s1.intervalActive }
  | Except.error msg =>
      { s1 with app := { s1.app with error := some (errMsgOr msg "Failed to reset") } }

/-- Observable events of the controller's event loop.  A `tickMoment` is a
scheduled interval elapse: it dispatches `evolveGeneration` (whose first act
is the `gaAPI.evolve` call) only when the interval is live.  A
`reconcileEv` is the later completion of a previously dispatched tick, with
the remote results it saw. -/
inductive Event where
  | startEv (target : String) (config : GAConfig) (initResult : Except String (List Individual))
  | tickMoment
  | reconcileEv (remote : Remote)
  | stopEv
  | resetEv (resetResult : Except String Unit)

/-- Whether an event is a user `start` action. -/
def Event.isStart : Event → Bool
  | Event.startEv _ _ _ => true
  | _ => false

/-- One event-loop step; the boolean records whether this event dispatched an
`evolveOneGeneration` call. -/
def step (s : ControllerState) : Event → ControllerState × Bool
  | Event.startEv t c initResult => (handleStart s t c initResult, false)
  | Event.tickMoment => (s, s.intervalActive)
  | Event.reconcileEv remote => ((evolveGeneration s remote).1, false)
  | Event.stopEv => (stopEvolution s, false)
  | Event.resetEv r => (handleReset s r, false)

/-- Run a trace of events. -/
def run (s : ControllerState) : List Event → ControllerState
  | [] => s
  | e :: es => run (step s e).1 es

/-- Whether any event of the trace dispatches an `evolveOneGeneration`
call. -/
def dispatchesEvolve (s : ControllerState) : List Event → Bool
  | [] => false
  | e :: es => (step s e).2 || dispatchesEvolve (step s e).1 es

/-- Whether the trace contains a user `start` action. -/
def hasStart : List Event → Bool
  | [] => false
  | e :: es => e.isStart || hasStart es

/-! ### Fitness-chart renderer (FitnessChart.tsx) -/

/-- `Math.max(1, Math.max(...data.map(d => d.generation)))`: the x-scale
denominator. -/
def maxGenOf (data : List HistoryEntry) : ℕ :=
  max 1 ((data.map HistoryEntry.generation).foldr max 0)

/-- X pixel of a data point: `padding + (generation / maxGen) * (width - 2 * padding)`. -/
def chartPointX (width padding : ℚ) (maxGen : ℕ) (g : ℕ) : ℚ :=
  padding + ((g : ℚ) / (maxGen : ℚ)) * (width - 2 * padding)

/-- Y pixel of a fitness value: `height - padding - fitness * (height - 2 * padding)`. -/
def chartPointY (height padding : ℚ) (f : ℚ) : ℚ :=
  height - padding - f * (height - 2 * padding)

/-- The coordinate computation of the chart effect: `none` when the data is
empty (the effect returns before any coordinate math); otherwise the two
polylines (best-fitness and average-fitness points, in data order). -/
def renderChart (width height padding : ℚ) (data : List HistoryEntry) :
    Option (List (ℚ × ℚ) × List (ℚ × ℚ)) :=
  if data.isEmpty then none
  else
    let maxGen := maxGenOf data
    some
      (data.map fun d =>
        (chartPointX width padding maxGen d.generation, chartPointY height padding d.best_fitness),
       data.map fun d =>
        (chartPointX width padding maxGen d.generation, chartPointY height padding d.avg_fitness))

/-! ### Sample concrete values (used by witnesses and counterexamples) -/

/-- A sample individual. -/
def sampleInd : Individual := ⟨"TO BE", 1⟩

/-- Sample per-generation statistics. -/
def sampleStats : Statistics := ⟨3, 1, 1/2, 0⟩

/-- A sample evolve response whose `is_complete` flag is set. -/
def sampleDone : EvolveResponse := ⟨[sampleInd], sampleStats, true⟩

/-- A sample evolve response with `is_complete = false`. -/
def sampleOngoing : EvolveResponse := ⟨[sampleInd], sampleStats, false⟩

/-- A sample fetched history. -/
def sampleHist : List HistoryEntry := [⟨1, 1/2, 1/4⟩]

/-- Remote results for a tick that observes completion. -/
def sampleRemoteDone : Remote := ⟨Except.ok sampleDone, Except.ok sampleHist, Except.ok sampleInd⟩

/-- Remote results for an ordinary successful tick. -/
def sampleRemoteOk : Remote := ⟨Except.ok sampleOngoing, Except.ok sampleHist, Except.ok sampleInd⟩

/-- Remote results for a tick whose first call throws. -/
def sampleRemoteFail : Remote := ⟨Except.error "Network Error", Except.ok sampleHist, Except.ok sampleInd⟩

/-- A session in the middle of a run (initialized, running, interval live). -/
def runningState : ControllerState :=
  ⟨{ initialAppState with
      isInitialized := true
      isRunning := true
      target := "TO BE"
      population := [sampleInd] }, true⟩

/-- A sample GA configuration. -/
def sampleConfig : GAConfig := ⟨50, 1/100, 7/10, 2⟩

/-- A sample trace without any user `start` action. -/
def sampleEvents : List Event :=
  [Event.tickMoment, Event.reconcileEv sampleRemoteOk, Event.stopEv,
   Event.tickMoment, Event.resetEv (Except.ok ()), Event.tickMoment]

/-! ### Invariant lemmas shared by the temporal claims -/

/-- A tick reconciliation never re-installs a cleared interval. -/
theorem evolveGeneration_intervalOff (s : ControllerState) (remote : Remote)
    (hi : s.intervalActive = false) :
    ((evolveGeneration s remote).1).intervalActive = false := by
  rcases remote with ⟨ev, hist, bst⟩
  cases ev with
  | error m => simp [evolveGeneration, tickFailure]
  | ok e =>
    cases hist with
    | error m => simp [evolveGeneration, tickFailure]
    | ok h =>
      cases bst with
      | error m => simp [evolveGeneration, tickFailure]
      | ok b =>
        cases hc : e.is_complete <;>
          simp [evolveGeneration, applyTickResponse, hc, hi]

/-- A tick reconciliation never sets `isRunning` back to true. -/
theorem evolveGeneration_notRunning (s : ControllerState) (remote : Remote)
    (hr : s.app.isRunning = false) :
    ((evolveGeneration s remote).1).app.isRunning = false := by
  rcases remote with ⟨ev, hist, bst⟩
  cases ev with
  | error m => simp [evolveGeneration, tickFailure]
  | ok e =>
    cases hist with
    | error m => simp [evolveGeneration, tickFailure]
    | ok h =>
      cases bst with
      | error m => simp [evolveGeneration, tickFailure]
      | ok b =>
        cases hc : e.is_complete <;>
          simp [evolveGeneration, applyTickResponse, hc, hr]

/-- Any single non-start event keeps a cleared interval cleared, keeps the
running flag down, and dispatches no generation. -/
theorem step_no_start_inv (s : ControllerState) (e : Event)
    (he : e.isStart = false)
    (hi : s.intervalActive = false) (hr : s.app.isRunning = false) :
    (step s e).1.intervalActive = false ∧ (step s e).1.app.isRunning = false ∧
    (step s e).2 = false := by
  cases e with
  | startEv t c r => simp [Event.isStart] at he
  | tickMoment => exact ⟨hi, hr, hi⟩
  | reconcileEv remote =>
      exact ⟨evolveGeneration_intervalOff s remote hi,
             evolveGeneration_notRunning s remote hr, rfl⟩
  | stopEv => exact ⟨rfl, rfl, rfl⟩
  | resetEv r =>
      cases r with
      | ok u => exact ⟨rfl, rfl, rfl⟩
      | error m => exact ⟨rfl, rfl, rfl⟩

/-- Along any trace without a user `start`, a cleared interval stays cleared,
the running flag stays down, and no generation is ever dispatched. -/
theorem run_no_start_inv : ∀ (evs : List Event) (s : ControllerState),
    hasStart evs = false → s.intervalActive = false → s.app.isRunning = false →
    (run s evs).intervalActive = false ∧ (run s evs).app.isRunning = false ∧
    dispatchesEvolve s evs = false
  | [], s, _, hi, hr => ⟨hi, hr, rfl⟩
  | e :: es, s, hns, hi, hr => by
      have hparts : e.isStart = false ∧ hasStart es = false := by
        have h := hns
        simpa [hasStart] using h
      obtain ⟨hsi, hsr, hsd⟩ := step_no_start_inv s e hparts.1 hi hr
      obtain ⟨hi', hr', hd'⟩ := run_no_start_inv es (step s e).1 hparts.2 hsi hsr
      refine ⟨hi', hr', ?_⟩
      simp [dispatchesEvolve, hsd, hd']

/-! ### Claims -/

/-- Claim C1: once a poll tick observes `is_complete = true` (all three calls
succeeded and the flag is set), that same reconciliation clears the polling
interval and sets the running flag false, and along any subsequent trace
containing no new user `start` action, no scheduled moment dispatches an
`evolveOneGeneration` call. -/
theorem c1_no_post_terminal_ticks (s : ControllerState) (remote : Remote)
    (e : EvolveResponse) (h : List HistoryEntry) (b : Individual) (evs : List Event)
    (hev : remote.evolveResult = Except.ok e) (hc : e.is_complete = true)
    (hh : remote.historyResult = Except.ok h) (hb : remote.bestResult = Except.ok b)
    (hns : hasStart evs = false) :
    ((evolveGeneration s remote).1).intervalActive = false ∧
    ((evolveGeneration s remote).1).app.isRunning = false ∧
    dispatchesEvolve ((evolveGeneration s remote).1) evs = false := by
  have hres : (evolveGeneration s remote).1 = applyTickResponse s e h b := by
    simp [evolveGeneration, hev, hh, hb]
  have hi : (applyTickResponse s e h b).intervalActive = false := by
    simp [applyTickResponse, hc]
  have hr : (applyTickResponse s e h b).app.isRunning = false := by
    simp [applyTickResponse, hc]
  refine ⟨hres ▸ hi, hres ▸ hr, ?_⟩
  rw [hres]
  exact (run_no_start_inv evs (applyTickResponse s e h b) hns hi hr).2.2

/-- Witness for C1 at a concrete running session, completing tick and
start-free trace. -/
theorem c1_witness :
    ((evolveGeneration runningState sampleRemoteDone).1).intervalActive = false ∧
    ((evolveGeneration runningState sampleRemoteDone).1).app.isRunning = false ∧
    dispatchesEvolve ((evolveGeneration runningState sampleRemoteDone).1) sampleEvents = false :=
  c1_no_post_terminal_ticks runningState sampleRemoteDone sampleDone sampleHist sampleInd
    sampleEvents rfl rfl rfl rfl rfl

/-- Claim C2: stop() clears the interval, so along any subsequent start-free
trace (which may contain reconciliations of still-outstanding ticks) no
further `evolveOneGeneration` call is dispatched; and a tick reconciling
after the stop leaves the running flag false — it never resurrects
`Running`. -/
theorem c2_stop_cancels_future_work (s : ControllerState) (evs : List Event)
    (remote : Remote) (hns : hasStart evs = false) :
    dispatchesEvolve (stopEvolution s) evs = false ∧
    ((evolveGeneration (run (stopEvolution s) evs) remote).1).app.isRunning = false := by
  obtain ⟨hi', hr', hd⟩ := run_no_start_inv evs (stopEvolution s) hns rfl rfl
  exact ⟨hd, evolveGeneration_notRunning _ remote hr'⟩

/-- Witness for C2 at a concrete running session and start-free trace. -/
theorem c2_witness :
    dispatchesEvolve (stopEvolution runningState) sampleEvents = false ∧
    ((evolveGeneration (run (stopEvolution runningState) sampleEvents) sampleRemoteOk).1).app.isRunning = false :=
  c2_stop_cancels_future_work runningState sampleEvents sampleRemoteOk rfl

/-- Claim C3: a successful poll tick issues exactly the calls evolve, history,
best in that order, and the reconciliation replaces `population`,
`generation`, `averageFitness`, `bestEver`, `history` with the fetched
values. -/
theorem c3_tick_sequence_and_merge (s : ControllerState) (remote : Remote)
    (e : EvolveResponse) (h : List HistoryEntry) (b : Individual)
    (hev : remote.evolveResult = Except.ok e)
    (hh : remote.historyResult = Except.ok h)
    (hb : remote.bestResult = Except.ok b) :
    (evolveGeneration s remote).2.1 = [GaCall.evolveCall, GaCall.historyCall, GaCall.bestCall] ∧
    ((evolveGeneration s remote).1).app.population = e.top_individuals ∧
    ((evolveGeneration s remote).1).app.generation = e.statistics.generation ∧
    ((evolveGeneration s remote).1).app.averageFitness = e.statistics.avg_fitness ∧
    ((evolveGeneration s remote).1).app.bestEver = some b ∧
    ((evolveGeneration s remote).1).app.history = h := by
  have hres : evolveGeneration s remote =
      (applyTickResponse s e h b,
       [GaCall.evolveCall, GaCall.historyCall, GaCall.bestCall],
       if e.is_complete then ["Evolution complete! Stopping..."] else []) := by
    simp [evolveGeneration, hev, hh, hb]
  rw [hres]
  cases hc : e.is_complete <;> simp [applyTickResponse, hc]

/-- Witness for C3 at a concrete session and successful tick. -/
theorem c3_witness :
    (evolveGeneration runningState sampleRemoteOk).2.1 =
      [GaCall.evolveCall, GaCall.historyCall, GaCall.bestCall] ∧
    ((evolveGeneration runningState sampleRemoteOk).1).app.population = sampleOngoing.top_individuals ∧
    ((evolveGeneration runningState sampleRemoteOk).1).app.generation = sampleOngoing.statistics.generation ∧
    ((evolveGeneration runningState sampleRemoteOk).1).app.averageFitness = sampleOngoing.statistics.avg_fitness ∧
    ((evolveGeneration runningState sampleRemoteOk).1).app.bestEver = some sampleInd ∧
    ((evolveGeneration runningState sampleRemoteOk).1).app.history = sampleHist :=
  c3_tick_sequence_and_merge runningState sampleRemoteOk sampleOngoing sampleHist sampleInd
    rfl rfl rfl

/-- A prior session state with visible progress, used to refute the
clear-on-failed-reset part of claim C4. -/
def progressedState : ControllerState :=
  ⟨{ initialAppState with
      isInitialized := true
      isRunning := true
      generation := 7
      target := "TO BE"
      population := [sampleInd]
      bestEver := some sampleInd
      history := sampleHist }, true⟩

/-- Counterexample to claim C4 as stated: when the remote reset call fails,
the local fields are NOT cleared — `generation` stays 7 and `population`
stays non-empty (only the loop is stopped and `error` set). -/
theorem c4_counterexample :
    ((handleReset progressedState (Except.error "boom")).app.generation = 7) ∧
    ((handleReset progressedState (Except.error "boom")).app.population ≠ []) ∧
    ((handleReset progressedState (Except.error "boom")).app.bestEver ≠ none) := by
  refine ⟨rfl, ?_, ?_⟩ <;> simp [handleReset, stopEvolution, progressedState, initialAppState]

/-- Claim C4 (amended): when the remote reset call succeeds, every field is
cleared to its initial value (generation 0, empty population, no best-ever,
empty history, no error, phase Idle) whatever the prior state, and the
interval is cleared.  When the remote reset call fails, the polling loop is
still stopped (interval cleared, running flag false) and the error is
surfaced in the `error` field, but the remaining local fields keep their
prior values — they are not cleared. -/
theorem c4_reset_clears_on_success_only (s : ControllerState) (msg : String) :
    handleReset s (Except.ok ()) = ⟨initialAppState, false⟩ ∧
    (handleReset s (Except.ok ())).app.phase = Phase.Idle ∧
    (handleReset s (Except.error msg)).intervalActive = false ∧
    (handleReset s (Except.error msg)).app.isRunning = false ∧
    (handleReset s (Except.error msg)).app.error = some (errMsgOr msg "Failed to reset") ∧
    (handleReset s (Except.error msg)).app.generation = s.app.generation ∧
    (handleReset s (Except.error msg)).app.population = s.app.population ∧
    (handleReset s (Except.error msg)).app.bestEver = s.app.bestEver ∧
    (handleReset s (Except.error msg)).app.history = s.app.history ∧
    (handleReset s (Except.error msg)).app.isInitialized = s.app.isInitialized ∧
    (handleReset s (Except.error msg)).app.target = s.app.target ∧
    (handleReset s (Except.error msg)).app.isComplete = s.app.isComplete := by
  refine ⟨rfl, rfl, ?_⟩
  simp [handleReset, stopEvolution]

/-- Concrete session state whose `error` field is empty, used to refute the
record-error part of claim C5. -/
def midRunState : ControllerState :=
  ⟨{ initialAppState with isInitialized := true, isRunning := true }, true⟩

/-- Counterexample to claim C5 as stated: when the evolve call fails, the
session state's `error` field is NOT set to the cause — it stays `none`
(the cause is only written to the console). -/
theorem c5_counterexample :
    ((evolveGeneration midRunState sampleRemoteFail).1).app.error = none := rfl

/-- Claim C5 (amended): if any of the three per-tick calls fails, the
controller immediately clears the interval and the running flag (phase
becomes Stopped), issues each remote call at most once (no retry), logs the
error cause to the console, but leaves the session state's `error` field
unchanged — the cause is not recorded in session state. -/
theorem c5_midrun_failure_fail_fast (s : ControllerState) (remote : Remote) (msg : String)
    (hinit : s.app.isInitialized = true) (hnc : s.app.isComplete = false)
    (hfail : remote.evolveResult = Except.error msg ∨
             remote.historyResult = Except.error msg ∨
             remote.bestResult = Except.error msg) :
    ((evolveGeneration s remote).1).intervalActive = false ∧
    ((evolveGeneration s remote).1).app.isRunning = false ∧
    ((evolveGeneration s remote).1).app.phase = Phase.Stopped ∧
    ((evolveGeneration s remote).1).app.error = s.app.error ∧
    ((evolveGeneration s remote).2.1).Nodup ∧
    (∃ m, (evolveGeneration s remote).2.2 = ["Evolution error: " ++ m]) := by
  have hfailState : (evolveGeneration s remote).1 = tickFailure s ∧
      ((evolveGeneration s remote).2.1).Nodup ∧
      (∃ m, (evolveGeneration s remote).2.2 = ["Evolution error: " ++ m]) := by
    rcases hev : remote.evolveResult with m | e
    · exact ⟨by simp [evolveGeneration, hev], by simp [evolveGeneration, hev],
             ⟨m, by simp [evolveGeneration, hev]⟩⟩
    · rcases hh : remote.historyResult with m | h
      · exact ⟨by simp [evolveGeneration, hev, hh], by simp [evolveGeneration, hev, hh],
               ⟨m, by simp [evolveGeneration, hev, hh]⟩⟩
      · rcases hb : remote.bestResult with m | b
        · exact ⟨by simp [evolveGeneration, hev, hh, hb],
                 by simp [evolveGeneration, hev, hh, hb],
                 ⟨m, by simp [evolveGeneration, hev, hh, hb]⟩⟩
        · rcases hfail with hf | hf | hf
          · rw [hev] at hf; exact absurd hf (by simp)
          · rw [hh] at hf; exact absurd hf (by simp)
          · rw [hb] at hf; exact absurd hf (by simp)
  obtain ⟨hres, hnd, hlog⟩ := hfailState
  rw [hres]
  refine ⟨rfl, rfl, ?_, rfl, hnd, hlog⟩
  simp [tickFailure, AppState.phase, hinit, hnc]

/-- Witness for C5 (amended) at a concrete mid-run session and a failing
evolve call. -/
theorem c5_witness :
    ((evolveGeneration midRunState sampleRemoteFail).1).intervalActive = false ∧
    ((evolveGeneration midRunState sampleRemoteFail).1).app.isRunning = false ∧
    ((evolveGeneration midRunState sampleRemoteFail).1).app.phase = Phase.Stopped ∧
    ((evolveGeneration midRunState sampleRemoteFail).1).app.error = midRunState.app.error ∧
    ((evolveGeneration midRunState sampleRemoteFail).2.1).Nodup ∧
    (∃ m, (evolveGeneration midRunState sampleRemoteFail).2.2 = ["Evolution error: " ++ m]) :=
  c5_midrun_failure_fail_fast midRunState sampleRemoteFail "Network Error"
    rfl rfl (Or.inl rfl)

/-- Claim C6: a successful start stores the returned initial population, sets
generation 0 and the target, clears the error field, marks the session
initialized and running, and installs the polling interval. -/
theorem c6_start_success (s : ControllerState) (t : String) (c : GAConfig)
    (pop : List Individual) :
    (handleStart s t c (Except.ok pop)).app.population = pop ∧
    (handleStart s t c (Except.ok pop)).app.generation = 0 ∧
    (handleStart s t c (Except.ok pop)).app.target = t ∧
    (handleStart s t c (Except.ok pop)).app.error = none ∧
    (handleStart s t c (Except.ok pop)).app.isInitialized = true ∧
    (handleStart s t c (Except.ok pop)).app.isRunning = true ∧
    (handleStart s t c (Except.ok pop)).intervalActive = true := by
  simp [handleStart]

/-- Claim C7: when the remote initialization fails from an Idle session, the
session stays Idle (not initialized, not running), the error field holds the
failure message, and no polling interval is started. -/
theorem c7_start_failure (s : ControllerState) (t : String) (c : GAConfig) (msg : String)
    (hIdle : s.app.isInitialized = false) (hnr : s.app.isRunning = false)
    (hni : s.intervalActive = false) :
    (handleStart s t c (Except.error msg)).app.isInitialized = false ∧
    (handleStart s t c (Except.error msg)).app.isRunning = false ∧
    (handleStart s t c (Except.error msg)).app.phase = Phase.Idle ∧
    (handleStart s t c (Except.error msg)).app.error =
      some (errMsgOr msg "Failed to initialize GA") ∧
    (handleStart s t c (Except.error msg)).intervalActive = false := by
  refine ⟨hIdle, hnr, ?_, rfl, hni⟩
  simp [handleStart, AppState.phase, hIdle]

/-- Witness for C7 from the pristine Idle state. -/
theorem c7_witness :
    (handleStart ⟨initialAppState, false⟩ "TO BE" sampleConfig (Except.error "Network Error")).app.isInitialized = false ∧
    (handleStart ⟨initialAppState, false⟩ "TO BE" sampleConfig (Except.error "Network Error")).app.isRunning = false ∧
    (handleStart ⟨initialAppState, false⟩ "TO BE" sampleConfig (Except.error "Network Error")).app.phase = Phase.Idle ∧
    (handleStart ⟨initialAppState, false⟩ "TO BE" sampleConfig (Except.error "Network Error")).app.error =
      some (errMsgOr "Network Error" "Failed to initialize GA") ∧
    (handleStart ⟨initialAppState, false⟩ "TO BE" sampleConfig (Except.error "Network Error")).intervalActive = false :=
  c7_start_failure ⟨initialAppState, false⟩ "TO BE" sampleConfig "Network Error" rfl rfl rfl

/-- Claim C8: tick reconciliation is idempotent — reapplying the very same
remote results to the state a reconciliation produced changes nothing. -/
theorem c8_idempotent_reconciliation (s : ControllerState) (remote : Remote) :
    (evolveGeneration (evolveGeneration s remote).1 remote).1 =
      (evolveGeneration s remote).1 := by
  rcases remote with ⟨ev, hist, bst⟩
  cases ev with
  | error m => simp [evolveGeneration, tickFailure]
  | ok e =>
    cases hist with
    | error m => simp [evolveGeneration, tickFailure]
    | ok h =>
      cases bst with
      | error m => simp [evolveGeneration, tickFailure]
      | ok b =>
        cases hc : e.is_complete <;>
          simp [evolveGeneration, applyTickResponse, hc]

/-- Every member of a list of naturals is bounded by its `foldr max 0`. -/
theorem foldr_max_le_of_mem {n : ℕ} : ∀ {l : List ℕ}, n ∈ l → n ≤ l.foldr max 0
  | [], h => absurd h (List.not_mem_nil n)
  | x :: xs, h => by
      rcases List.mem_cons.mp h with h | h
      · subst h; exact le_max_left _ _
      · exact le_trans (foldr_max_le_of_mem h) (le_max_right _ _)

/-- A positive `foldr max 0` over naturals is attained by some member. -/
theorem foldr_max_mem : ∀ (l : List ℕ), 0 < l.foldr max 0 → l.foldr max 0 ∈ l
  | [], h => absurd h (by simp)
  | x :: xs, h => by
      rcases max_choice x (xs.foldr max 0) with hx | hx
      · rw [List.foldr_cons, hx]
        exact List.mem_cons_self x xs
      · rw [List.foldr_cons, hx]
        have hpos : 0 < xs.foldr max 0 := by
          rw [List.foldr_cons, hx] at h
          exact h
        exact List.mem_cons_of_mem x (foldr_max_mem xs hpos)

/-- Claim C9: for non-empty chart data the x-scale denominator is clamped to
at least 1 and bounds every generation in the data (it is 1 or one of the
generations), so no division by zero occurs; a single point at generation 0
is plotted at the left margin `x = padding`; and for empty data the renderer
performs no coordinate math at all. -/
theorem c9_chart_scale_clamp (w h p : ℚ) (data : List HistoryEntry) (bf af : ℚ)
    (hne : data ≠ []) :
    1 ≤ maxGenOf data ∧
    (∀ d ∈ data, d.generation ≤ maxGenOf data) ∧
    (maxGenOf data = 1 ∨ ∃ d ∈ data, maxGenOf data = d.generation) ∧
    renderChart w h p [] = none ∧
    renderChart w h p [⟨0, bf, af⟩] =
      some ([(p, chartPointY h p bf)], [(p, chartPointY h p af)]) := by
  refine ⟨le_max_left 1 _, ?_, ?_, rfl, ?_⟩
  · intro d hd
    exact le_trans (foldr_max_le_of_mem (List.mem_map_of_mem HistoryEntry.generation hd))
      (le_max_right 1 _)
  · rcases max_choice 1 ((data.map HistoryEntry.generation).foldr max 0) with hx | hx
    · exact Or.inl hx
    · refine Or.inr ?_
      have hpos : 0 < (data.map HistoryEntry.generation).foldr max 0 := by
        have h1 : (1 : ℕ) ≤ max 1 ((data.map HistoryEntry.generation).foldr max 0) :=
          le_max_left 1 _
        rw [hx] at h1
        exact h1
      have hmem := foldr_max_mem _ hpos
      rw [List.mem_map] at hmem
      obtain ⟨d, hdm, hde⟩ := hmem
      refine ⟨d, hdm, ?_⟩
      show max 1 _ = _
      rw [hx, ← hde]
  · simp [renderChart, maxGenOf, chartPointX]

/-- Witness for C9 at the single-point history of the spec's scenario. -/
theorem c9_witness :
    1 ≤ maxGenOf [⟨0, 1, 1/2⟩] ∧
    (∀ d ∈ [(⟨0, 1, 1/2⟩ : HistoryEntry)], d.generation ≤ maxGenOf [⟨0, 1, 1/2⟩]) ∧
    (maxGenOf [⟨0, 1, 1/2⟩] = 1 ∨
      ∃ d ∈ [(⟨0, 1, 1/2⟩ : HistoryEntry)], maxGenOf [⟨0, 1, 1/2⟩] = d.generation) ∧
    renderChart 800 400 40 [] = none ∧
    renderChart 800 400 40 [⟨0, 1, 1/2⟩] =
      some ([(40, chartPointY 400 40 1)], [(40, chartPointY 400 40 (1/2))]) :=
  c9_chart_scale_clamp 800 400 40 [⟨0, 1, 1/2⟩] 1 (1/2) (by simp)

/-- Claim C10: a manual stop mutates only the running flag — every other
session-state field is unchanged, so the last reconciled results remain
displayed. -/
theorem c10_stop_frame (s : ControllerState) :
    (stopEvolution s).app.isRunning = false ∧
    (stopEvolution s).app.generation = s.app.generation ∧
    (stopEvolution s).app.target = s.app.target ∧
    (stopEvolution s).app.population = s.app.population ∧
    (stopEvolution s).app.bestEver = s.app.bestEver ∧
    (stopEvolution s).app.averageFitness = s.app.averageFitness ∧
    (stopEvolution s).app.isComplete = s.app.isComplete ∧
    (stopEvolution s).app.history = s.app.history ∧
    (stopEvolution s).app.error = s.app.error ∧
    (stopEvolution s).app.isInitialized = s.app.isInitialized := by
  simp [stopEvolution]

end ShakespeareGA
